import Mathlib

/-!
Formal model of the PeerNetwork layer of the Minovski repository
(`src/src/utils/peerNetwork.js`).  The JavaScript class is embedded
shallowly: each method that the verified properties concern is translated
into a pure Lean function over explicit state, with the asynchronous
transport callbacks replaced by oracles (one outcome per connection
attempt) and with timers represented by the backoff-delay values the code
computes.  Machine integers do not overflow in the modelled code paths, so
numbers are plain `Nat`.
-/

namespace PeerNetwork

/-! ## Constants (`peerNetwork.js`, lines 11-17) -/

/-- Connection timeout in milliseconds (`CONNECTION_TIMEOUT_MS = 45000`). -/
def CONNECTION_TIMEOUT_MS : Nat := 45000

/-- Maximum number of connection retry attempts (`MAX_RETRY_ATTEMPTS = 3`). -/
def MAX_RETRY_ATTEMPTS : Nat := 3

/-- Base delay for exponential backoff in ms (`RETRY_BASE_DELAY_MS = 2000`). -/
def RETRY_BASE_DELAY_MS : Nat := 2000

/-! ## The connect-with-retry state machine (`joinRoom`, lines 186-260)

For one call of `joinRoom(hostId, attempt)` exactly one of three transport
signals settles the attempt: the connection's `open` event fires before the
45 s timer (line 243), the timer fires first (line 221), or the
connection's `error` event fires (line 255).  The oracle `outcome k` says
which signal settles attempt `k`. -/

/-- Outcome the transport reports for one outward connection attempt.
`errored transient` carries whether the underlying error was a transient
one (no response) or not (e.g. malformed target id); the distinction
exists in the spec's vocabulary and is recorded so that theorems can
quantify over it. -/
inductive AttemptOutcome
  | opened
  | timedOut
  | errored (transient : Bool)
deriving DecidableEq, Repr

/-- Observable events of a `joinRoom` run: the `connection-progress`
emissions of lines 201, 224 and 245, and the backoff delay the code
schedules at lines 232-235 before the next attempt. -/
inductive JoinEvent
  | progressConnecting (attempt : Nat)
  | progressRetrying (attempt : Nat)
  | backoffDelay (ms : Nat)
  | progressConnected (attempt : Nat)
deriving DecidableEq, Repr

/-- Final settlement of the promise returned by `joinRoom`. -/
inductive JoinResult
  | resolved (attempt : Nat)
  | rejectedPeerNotInitialized
  | rejectedPeerDisconnected
  | rejectedConnCreateFailed
  | rejectedRetriesExhausted
  | rejectedError (transient : Bool)
deriving DecidableEq, Repr

/-- One call of `joinRoom(hostId, attempt)` together with its recursive
retries.  `remaining` is the structural encoding of the source's guard
`attempt < MAX_RETRY_ATTEMPTS` (line 223): the invariant is
`remaining = maxAttempts - attempt`, so the guard holds exactly when
`remaining > 0`.  `peerReady` models `this.peer && !this.peer.destroyed`
(line 189), `peerDisconnected` models `this.peer.disconnected` (line 195),
and `connCreated` models the `!conn` check (line 214); the source
re-evaluates them on every recursive call, modelled here as values fixed
for the run.  On timeout with retries left the code emits the `retrying`
progress event, waits `RETRY_BASE_DELAY_MS * 2^(attempt-1)` ms and calls
`joinRoom(hostId, attempt + 1)` whose promise settles the caller's; on
`error` it clears the timeout and rejects at once (lines 255-258). -/
def joinRoomAux (baseDelay : Nat) (outcome : Nat → AttemptOutcome)
    (peerReady peerDisconnected connCreated : Bool) :
    Nat → Nat → List JoinEvent × JoinResult
  | remaining, attempt =>
    if peerReady = false then ([], .rejectedPeerNotInitialized)
    else if peerDisconnected = true then ([], .rejectedPeerDisconnected)
    else if connCreated = false then
      ([.progressConnecting attempt], .rejectedConnCreateFailed)
    else
      match outcome attempt with
      | .opened =>
        ([.progressConnecting attempt, .progressConnected attempt], .resolved attempt)
      | .errored t =>
        ([.progressConnecting attempt], .rejectedError t)
      | .timedOut =>
        match remaining with
        | 0 => ([.progressConnecting attempt], .rejectedRetriesExhausted)
        | r + 1 =>
          let rest := joinRoomAux baseDelay outcome peerReady peerDisconnected connCreated
            r (attempt + 1)
          (.progressConnecting attempt :: .progressRetrying (attempt + 1) ::
            .backoffDelay (baseDelay * 2 ^ (attempt - 1)) :: rest.1, rest.2)

/-- A full `joinRoom(hostId)` call: attempts start at 1, so the first call
has `maxAttempts - 1` retries remaining. -/
def joinRoomModel (maxAttempts baseDelay : Nat) (outcome : Nat → AttemptOutcome)
    (peerReady peerDisconnected connCreated : Bool) : List JoinEvent × JoinResult :=
  joinRoomAux baseDelay outcome peerReady peerDisconnected connCreated (maxAttempts - 1) 1

/-- The `joinRoom` of the source with its actual constants. -/
def joinRoom (outcome : Nat → AttemptOutcome)
    (peerReady peerDisconnected connCreated : Bool) : List JoinEvent × JoinResult :=
  joinRoomModel MAX_RETRY_ATTEMPTS RETRY_BASE_DELAY_MS outcome
    peerReady peerDisconnected connCreated

/-- Attempt numbers of the `connecting` progress events of a trace, in
emission order. -/
def connectingAttempts (tr : List JoinEvent) : List Nat :=
  tr.filterMap fun e =>
    match e with
    | .progressConnecting a => some a
    | _ => none

/-- Backoff delays scheduled in a trace, in emission order. -/
def backoffDelays (tr : List JoinEvent) : List Nat :=
  tr.filterMap fun e =>
    match e with
    | .backoffDelay d => some d
    | _ => none

/-! ## Data model of the live network state

`this.connections` is a JS `Map` from peer id to a PeerJS DataConnection;
only the `open` flag of a connection is consulted by the modelled methods,
so a connection is a pair of its key and that flag.  A JS `Map` iterates
and inserts in key-insertion order, modelled by an association list. -/

/-- A registered peer connection: its peer id and its `open` flag. -/
structure PeerConn where
  peerId : String
  openFlag : Bool
deriving DecidableEq, Repr

/-- Payload of a message envelope, for the envelope kinds the modelled
methods construct. -/
inductive MsgData
  | chat (message : String) (sourceDevice : String) (timestamp : Nat)
  | viewSwitch (targetDevice : String) (sourceDevice : String) (timestamp : Nat)
  | videoRequest (requesterId : String) (timestamp : Nat)
  | deviceInfo (deviceId : String) (timestamp : Nat)
  | generic
deriving DecidableEq, Repr

/-- A wire envelope `\x7b type, data \x7d`. -/
structure Envelope where
  etype : String
  data : MsgData
deriving DecidableEq, Repr

/-- One transport send: destination peer and the envelope handed to
`conn.send`. -/
structure Send where
  dest : String
  payload : Envelope
deriving DecidableEq, Repr

/-- Events published on the in-process event bus by the modelled methods. -/
inductive BusEvent
  | roomCreated (roomId : String) (deviceId : String)
  | chatMessage (peerId : String) (message : String) (timestamp : Nat) (isLocal : Bool)
  | videoRequested (peerId : String)
deriving DecidableEq, Repr

/-- The mutable fields of the `PeerNetwork` instance that the modelled
methods read. -/
structure NetState where
  deviceId : String
  isHost : Bool
  roomId : Option String
  connections : List PeerConn
deriving DecidableEq, Repr

/-- Lookup `this.connections.get(peerId)`. -/
def getConn (conns : List PeerConn) (peerId : String) : Option PeerConn :=
  conns.find? fun c => c.peerId == peerId

/-! ## Broadcast (`broadcast`, lines 707-713) -/

/-- Iterate the connection collection in order and send the envelope to
each connection whose `open` flag is set; every other connection is passed
over with no effect. -/
def broadcast (message : Envelope) : List PeerConn → List Send
  | [] => []
  | c :: rest =>
    if c.openFlag then
      { dest := c.peerId, payload := message } :: broadcast message rest
    else
      broadcast message rest

/-! ## Room creation (`createRoom`, lines 174-179) -/

/-- The `createRoom` method: sets `isHost := true`, builds the room id
from a fresh UUID (`room-` followed by `uuidv4().slice(0, 6)`), emits
`room-created` and returns the room id.  The fresh UUID string is passed
as the argument `uuid`. -/
def createRoom (st : NetState) (uuid : String) : NetState × List BusEvent × String :=
  let rid := "room-" ++ uuid.take 6
  ({ st with isHost := true, roomId := some rid },
   [BusEvent.roomCreated rid st.deviceId],
   rid)

/-! ## Outbound helpers (`broadcastViewSwitch` lines 407-420,
`broadcastChatMessage` lines 426-444, `requestVideoFromPeer`
lines 655-668) -/

/-- The `view-switch` envelope `broadcastViewSwitch` constructs. -/
def viewSwitchEnvelope (targetDevice sourceDevice : String) (now : Nat) : Envelope :=
  { etype := "view-switch", data := .viewSwitch targetDevice sourceDevice now }

/-- The `broadcastViewSwitch` method: a non-host returns at once after a
console warning (no send); a host broadcasts the `view-switch` envelope. -/
def broadcastViewSwitch (st : NetState) (targetDevice : String) (now : Nat) : List Send :=
  if st.isHost = false then []
  else broadcast (viewSwitchEnvelope targetDevice st.deviceId now) st.connections

/-- The `chat-message` envelope `broadcastChatMessage` constructs, with
the single `Date.now()` value it samples. -/
def chatEnvelope (sourceDevice : String) (text : String) (now : Nat) : Envelope :=
  { etype := "chat-message", data := .chat text sourceDevice now }

/-- The `broadcastChatMessage` method: samples `Date.now()` once, hands
the chat envelope to `broadcast`, then emits the `chat-message` bus event
locally with the sender's own id, the same timestamp and `isLocal = true`.
Returns the transport sends and the locally emitted bus events. -/
def broadcastChatMessage (st : NetState) (text : String) (now : Nat) :
    List Send × List BusEvent :=
  (broadcast (chatEnvelope st.deviceId text now) st.connections,
   [BusEvent.chatMessage st.deviceId text now true])

/-- The `video-request` envelope `requestVideoFromPeer` constructs. -/
def videoRequestEnvelope (requesterId : String) (now : Nat) : Envelope :=
  { etype := "video-request", data := .videoRequest requesterId now }

/-- The `requestVideoFromPeer` method: looks the peer up in the connection
map; when a connection exists and its `open` flag is set, sends the
`video-request` envelope on it and emits `video-requested`; in every other
case it does nothing at all (the source mutates no state on any path).
Returns the transport sends and the emitted bus events. -/
def requestVideoFromPeer (st : NetState) (peerId : String) (now : Nat) :
    List Send × List BusEvent :=
  match getConn st.connections peerId with
  | some c =>
    if c.openFlag then
      ([{ dest := peerId, payload := videoRequestEnvelope st.deviceId now }],
       [BusEvent.videoRequested peerId])
    else ([], [])
  | none => ([], [])

/-! ## Endpoint initialisation (`init`, lines 117-169)

The `peer.on('error')` handler regenerates the device id and calls
`this.init()` again whenever `err.type === 'unavailable-id'`; any other
error type rejects the promise.  The oracle is the list of outcomes of the
successive endpoint-creation attempts, and `fresh n` is the `n`-th
regenerated identifier (the source draws it from `uuidv4()` and persists
it to local storage before retrying). -/

/-- Outcome of one attempt to open the local transport endpoint. -/
inductive InitOutcome
  | opened
  | unavailableId
  | otherError
deriving DecidableEq, Repr

/-- Settlement of the promise returned by `init`. -/
inductive InitResult
  | resolved (deviceId : String)
  | rejected
  | pending
deriving DecidableEq, Repr

/-- Successive attempts of `init`: `opened` resolves with the current id,
`unavailableId` regenerates the id, persists it and recurses, any other
error rejects.  An exhausted outcome list leaves the promise pending
(the modelling horizon ends with no settling signal). -/
def initAux (fresh : Nat → String) : List InitOutcome → Nat → String → InitResult
  | [], _, _ => .pending
  | .opened :: _, _, deviceId => .resolved deviceId
  | .unavailableId :: rest, n, _ => initAux fresh rest (n + 1) (fresh n)
  | .otherError :: _, _, _ => .rejected

/-- A full `init()` call starting from the persisted device id. -/
def initModel (fresh : Nat → String) (outcomes : List InitOutcome)
    (deviceId : String) : InitResult :=
  initAux fresh outcomes 0 deviceId

/-! ## Connection setup de-duplication (`handleConnection`, lines 285-331)

`handleConnection` declares `let isSetupComplete = false`, registers
`setupConnection` as the `open` listener, and also calls it directly when
`conn.open` already holds.  Each signal that would run `setupConnection`
(the direct already-open call or a firing of the `open` event) is an
element of the signal list; the guard at line 292 makes every run after
the first a no-op. -/

/-- A signal that invokes `setupConnection`. -/
inductive SetupSignal
  | alreadyOpenObserved
  | openEventFired
deriving DecidableEq, Repr

/-- Effects of the runs of `setupConnection`: `connections.set`
registrations, `peer-connected` emissions, `device-info` handshake sends. -/
structure SetupOutcome where
  registrations : Nat
  peerConnectedEmits : Nat
  deviceInfoSends : Nat
deriving DecidableEq, Repr

/-- Process the signal list with the `isSetupComplete` one-shot guard:
a signal arriving with the flag still false performs the three setup
effects once and sets the flag; a signal arriving with the flag set
returns immediately. -/
def handleConnectionSetup : Bool → List SetupSignal → SetupOutcome
  | _, [] => ⟨0, 0, 0⟩
  | true, _ :: rest => handleConnectionSetup true rest
  | false, _ :: rest =>
    let o := handleConnectionSetup true rest
    ⟨o.registrations + 1, o.peerConnectedEmits + 1, o.deviceInfoSends + 1⟩

/-! ## Event bus (`on` lines 735-741, `emit` lines 749-755)

`this.listeners` is a JS `Map` from event name to a JS `Set` of callback
functions; both iterate in insertion order.  Callbacks are identified by
a numeric id (function identity in JS).  A `Set` is an insertion-ordered
duplicate-free list: `add` appends the element only when absent. -/

/-- JS `Set.add`: append the callback when absent, otherwise no change. -/
def setAdd (s : List Nat) (cb : Nat) : List Nat :=
  if cb ∈ s then s else s ++ [cb]

/-- The `on(event, callback)` method: create the event's `Set` when the
`Map` has no entry for it, then `add` the callback. -/
def onListener (e : String) (cb : Nat) :
    List (String × List Nat) → List (String × List Nat)
  | [] => [(e, setAdd [] cb)]
  | (e', s) :: rest =>
    if e' = e then (e', setAdd s cb) :: rest
    else (e', s) :: onListener e cb rest

/-- The callbacks `emit(event, data)` invokes, in order: the event's `Set`
when the `Map` has one, nothing otherwise. -/
def emitInvocations (e : String) : List (String × List Nat) → List Nat
  | [] => []
  | (e', s) :: rest => if e' = e then s else emitInvocations e rest

/-- Well-formedness of the listener table: every entry is a JS `Set`,
hence duplicate-free.  Every table the class ever builds satisfies this,
because `setAdd` never introduces a duplicate. -/
def wfListeners (ls : List (String × List Nat)) : Prop :=
  ∀ p ∈ ls, (p.2).Nodup

instance (ls : List (String × List Nat)) : Decidable (wfListeners ls) := by
  unfold wfListeners; infer_instance

/-! ## Theorems -/

/-- When every attempt times out, a run of the retry machine starting at
attempt `a` with `r` retries remaining rejects after exhausting them,
emitting `connecting` events numbered `a, a+1, …, a+r` and scheduling the
backoff `baseDelay * 2^(k-1)` after each attempt `k < a + r`. -/
theorem joinRoomAux_allTimeout (baseDelay : Nat) (outcome : Nat → AttemptOutcome)
    (h : ∀ k, outcome k = .timedOut) :
    ∀ r a : Nat,
      (joinRoomAux baseDelay outcome true false true r a).2 =
          JoinResult.rejectedRetriesExhausted ∧
      connectingAttempts (joinRoomAux baseDelay outcome true false true r a).1 =
        List.range' a (r + 1) ∧
      backoffDelays (joinRoomAux baseDelay outcome true false true r a).1 =
        (List.range' a r).map (fun k => baseDelay * 2 ^ (k - 1)) := by
  intro r
  induction r with
  | zero =>
    intro a
    simp [joinRoomAux, h a, connectingAttempts, backoffDelays]
  | succ r ih =>
    intro a
    obtain ⟨h1, h2, h3⟩ := ih (a + 1)
    refine ⟨?_, ?_, ?_⟩
    · simpa [joinRoomAux, h a] using h1
    · simp only [joinRoomAux, h a, connectingAttempts, List.filterMap_cons] at h2 ⊢
      simp [h2, List.range'_succ]
    · simp only [joinRoomAux, h a, backoffDelays, List.filterMap_cons] at h3 ⊢
      simp [h3, List.range'_succ]

/-- C1: with `maxAttempts = N ≥ 1` and any `baseDelay`, a `joinRoom`
connect sequence in which no attempt's connection opens before its timeout
performs exactly `N` connection attempts — one `connecting`
connection-progress event per attempt, with attempt numbers `1, …, N` in
increasing order — and then rejects the caller's promise, and the backoff
delay inserted before attempt `k+1` equals `baseDelay * 2^(k-1)`. -/
theorem joinRoom_allTimeout_exhausts_attempts
    (N baseDelay : Nat) (outcome : Nat → AttemptOutcome)
    (hN : 1 ≤ N) (h : ∀ k, outcome k = .timedOut) :
    (joinRoomModel N baseDelay outcome true false true).2 =
        JoinResult.rejectedRetriesExhausted ∧
    connectingAttempts (joinRoomModel N baseDelay outcome true false true).1 =
      List.range' 1 N ∧
    backoffDelays (joinRoomModel N baseDelay outcome true false true).1 =
      (List.range' 1 (N - 1)).map (fun k => baseDelay * 2 ^ (k - 1)) := by
  obtain ⟨h1, h2, h3⟩ := joinRoomAux_allTimeout baseDelay outcome h (N - 1) 1
  unfold joinRoomModel
  refine ⟨h1, ?_, h3⟩
  rw [h2, Nat.sub_add_cancel hN]

/-- Witness for C1 at the source's constants: `N = 3`,
`baseDelay = 2000`. -/
theorem joinRoom_allTimeout_exhausts_attempts_witness :
    (joinRoomModel 3 2000 (fun _ => .timedOut) true false true).2 =
        JoinResult.rejectedRetriesExhausted ∧
    connectingAttempts (joinRoomModel 3 2000 (fun _ => .timedOut) true false true).1 =
      List.range' 1 3 ∧
    backoffDelays (joinRoomModel 3 2000 (fun _ => .timedOut) true false true).1 =
      (List.range' 1 2).map (fun k => 2000 * 2 ^ (k - 1)) :=
  joinRoom_allTimeout_exhausts_attempts 3 2000 (fun _ => .timedOut)
    (by decide) (fun _ => rfl)

/-- C2 counterexample: with `maxAttempts = 3`, a transient explicit
transport error on attempt 1 does not fall through to the retry path the
way a timeout does — the run performs the single attempt and rejects
immediately with the error, emitting no `retrying` event and scheduling no
backoff. -/
theorem joinRoom_transient_error_cex :
    joinRoomModel 3 2000 (fun _ => .errored true) true false true =
      ([JoinEvent.progressConnecting 1], JoinResult.rejectedError true) := rfl

/-- C2 amended: an explicit transport connection error during any attempt
— transient or not — cancels the pending timeout and rejects the caller's
promise immediately with that error, consuming none of the remaining
retries; the source draws no transient/non-transient distinction
anywhere on this path. -/
theorem joinRoom_error_always_immediate
    (baseDelay : Nat) (outcome : Nat → AttemptOutcome) (t : Bool) (r a : Nat)
    (h : outcome a = .errored t) :
    joinRoomAux baseDelay outcome true false true r a =
      ([JoinEvent.progressConnecting a], JoinResult.rejectedError t) := by
  cases r <;> simp [joinRoomAux, h]

/-- Witness for the amended C2 at a non-transient error on attempt 1 with
two retries remaining. -/
theorem joinRoom_error_always_immediate_witness :
    joinRoomAux 2000 (fun _ => .errored false) true false true 2 1 =
      ([JoinEvent.progressConnecting 1], JoinResult.rejectedError false) :=
  joinRoom_error_always_immediate 2000 (fun _ => .errored false) false 2 1 rfl

/-- C3: `broadcast` sends the envelope to exactly those registered
connections whose `open` flag is set, in registration order, silently
passing over every other connection with no queueing and no retry; with
zero open connections it performs no send at all (and, being a total
function of the connection list, raises nothing). -/
theorem broadcast_exactly_open (message : Envelope) (conns : List PeerConn) :
    broadcast message conns =
      (conns.filter fun c => c.openFlag).map
        (fun c => { dest := c.peerId, payload := message }) ∧
    ((∀ c ∈ conns, c.openFlag = false) → broadcast message conns = []) := by
  constructor
  · induction conns with
    | nil => rfl
    | cons c rest ih => by_cases hc : c.openFlag <;> simp [broadcast, hc, ih]
  · intro hall
    induction conns with
    | nil => rfl
    | cons c rest ih =>
      have hc := hall c (by simp)
      simp only [broadcast, hc, Bool.false_eq_true, if_false]
      exact ih fun c' hc' => hall c' (by simp [hc'])

/-- Witness for C3: broadcasting to a table of two closed connections
performs no send. -/
theorem broadcast_exactly_open_witness :
    broadcast { etype := "detection", data := .generic }
      [{ peerId := "a", openFlag := false }, { peerId := "b", openFlag := false }] = [] :=
  (broadcast_exactly_open { etype := "detection", data := .generic }
    [{ peerId := "a", openFlag := false }, { peerId := "b", openFlag := false }]).2
    (by decide)

/-- Every `setupConnection` invocation arriving after the one-shot flag is
set has no effect. -/
theorem handleConnectionSetup_guarded (signals : List SetupSignal) :
    handleConnectionSetup true signals = ⟨0, 0, 0⟩ := by
  induction signals with
  | nil => rfl
  | cons s rest ih => simpa [handleConnectionSetup] using ih

/-- C4: however the open signals arrive — the already-open check alone,
the `open` event alone, or both in either order — as long as at least one
arrives, the connection setup executes exactly once: one registration in
the peer map, one `peer-connected` emission, one `device-info` handshake
send. -/
theorem handleConnection_setup_exactly_once (signals : List SetupSignal)
    (h : signals ≠ []) :
    handleConnectionSetup false signals = ⟨1, 1, 1⟩ := by
  cases signals with
  | nil => exact absurd rfl h
  | cons s rest => simp [handleConnectionSetup, handleConnectionSetup_guarded]

/-- Witness for C4: both signals arrive, already-open check first. -/
theorem handleConnection_setup_exactly_once_witness :
    handleConnectionSetup false
      [SetupSignal.alreadyOpenObserved, SetupSignal.openEventFired] = ⟨1, 1, 1⟩ :=
  handleConnection_setup_exactly_once
    [SetupSignal.alreadyOpenObserved, SetupSignal.openEventFired] (by decide)

/-- C5 counterexample: for a device whose identifier is `device-abcd1234`,
`createRoom` invoked with the fresh UUID `9f8e7d6c-1234-4abc-8def-0123456789ab`
returns the room id `room-9f8e7d`, which is not the device's identifier —
the room id is built from the fresh UUID, not derived from DeviceIdentity. -/
theorem createRoom_roomId_cex :
    (createRoom
        { deviceId := "device-abcd1234", isHost := false, roomId := none,
          connections := [] }
        "9f8e7d6c-1234-4abc-8def-0123456789ab").2.2 = "room-9f8e7d" ∧
    "room-9f8e7d" ≠ "device-abcd1234" :=
  ⟨rfl, by decide⟩

/-- C5 amended: `createRoom()` sets `isHost` to `true`, emits a
`room-created` event carrying the room id and the device id, and returns a
room id equal to `room-` followed by the first six characters of a freshly
generated UUID; the room id is not derived from the device's own
DeviceIdentity. -/
theorem createRoom_spec (st : NetState) (uuid : String) :
    (createRoom st uuid).1.isHost = true ∧
    (createRoom st uuid).2.2 = "room-" ++ uuid.take 6 ∧
    (createRoom st uuid).2.1 =
      [BusEvent.roomCreated ("room-" ++ uuid.take 6) st.deviceId] :=
  ⟨rfl, rfl, rfl⟩

/-- C6 counterexample: a device with `isHost = false` holding an open
connection to peer `a` still performs a transport send when it calls
`requestVideoFromPeer("a")` — the host-only gate exists in
`broadcastViewSwitch` but not in `requestVideoFromPeer`. -/
theorem requestVideoFromPeer_nonhost_cex :
    (requestVideoFromPeer
        { deviceId := "B", isHost := false, roomId := none,
          connections := [{ peerId := "a", openFlag := true }] } "a" 0).1 =
      [{ dest := "a", payload := videoRequestEnvelope "B" 0 }] ∧
    (requestVideoFromPeer
        { deviceId := "B", isHost := false, roomId := none,
          connections := [{ peerId := "a", openFlag := true }] } "a" 0).1 ≠ [] :=
  ⟨rfl, by decide⟩

/-- C6 amended: with `isHost = false`, `broadcastViewSwitch` performs no
transport send; `requestVideoFromPeer`, by contrast, is not gated on
`isHost` at all — its behaviour is identical whatever the value of the
`isHost` flag (it sends exactly when an open connection to the peer
exists). -/
theorem hostGate_viewSwitch_not_videoRequest
    (st : NetState) (target p : String) (now : Nat)
    (h : st.isHost = false) :
    broadcastViewSwitch st target now = [] ∧
    (∀ b : Bool, requestVideoFromPeer { st with isHost := b } p now =
        requestVideoFromPeer st p now) :=
  ⟨by simp [broadcastViewSwitch, h], fun _ => rfl⟩

/-- Witness for the amended C6: a concrete non-host device with an open
connection broadcasts no view switch. -/
theorem hostGate_viewSwitch_not_videoRequest_witness :
    broadcastViewSwitch
      { deviceId := "B", isHost := false, roomId := none,
        connections := [{ peerId := "a", openFlag := true }] } "a" 5 = [] :=
  (hostGate_viewSwitch_not_videoRequest
    { deviceId := "B", isHost := false, roomId := none,
      connections := [{ peerId := "a", openFlag := true }] } "a" "a" 5 rfl).1

/-- C7 counterexample: two consecutive identifier collisions do not
propagate as a fatal error — with attempt outcomes collision, collision,
success, `init` resolves with the second regenerated identifier instead of
rejecting. -/
theorem init_second_collision_cex :
    initModel (fun n => "regen-" ++ toString n)
        [.unavailableId, .unavailableId, .opened] "orig" =
      InitResult.resolved "regen-1" ∧
    initModel (fun n => "regen-" ++ toString n)
        [.unavailableId, .unavailableId, .opened] "orig" ≠ InitResult.rejected :=
  ⟨rfl, by decide⟩

/-- Running `m + 1` consecutive unavailable-id outcomes regenerates the
identifier `m + 1` times and continues with the remaining outcomes. -/
theorem initAux_collisions (fresh : Nat → String) (rest : List InitOutcome) :
    ∀ m n deviceId,
      initAux fresh
          (List.replicate (m + 1) InitOutcome.unavailableId ++ rest) n deviceId =
        initAux fresh rest (n + m + 1) (fresh (n + m)) := by
  intro m
  induction m with
  | zero => intro n d; rfl
  | succ m ih =>
    intro n d
    have hrep : List.replicate (m + 2) InitOutcome.unavailableId ++ rest =
        InitOutcome.unavailableId ::
          (List.replicate (m + 1) InitOutcome.unavailableId ++ rest) := by
      simp [List.replicate_succ]
    rw [hrep]
    show initAux fresh
        (List.replicate (m + 1) InitOutcome.unavailableId ++ rest) (n + 1) (fresh n) = _
    rw [ih (n + 1)]
    have h1 : n + 1 + m + 1 = n + (m + 1) + 1 := by omega
    have h2 : n + 1 + m = n + (m + 1) := by omega
    rw [h1, h2]

/-- C7 amended: `init` recovers from identifier collisions without bound:
for every `m`, a run of `m + 1` consecutive unavailable-id failures
followed by a successful open resolves the promise with the last
regenerated identifier — a second (or any later) collision is regenerated
and retried again, never propagated as fatal — while an error of any other
type rejects the promise immediately. -/
theorem init_collision_retry_unbounded
    (fresh : Nat → String) (deviceId : String) (m : Nat) :
    initModel fresh
        (List.replicate (m + 1) InitOutcome.unavailableId ++ [InitOutcome.opened])
        deviceId = InitResult.resolved (fresh m) ∧
    initModel fresh
        (List.replicate (m + 1) InitOutcome.unavailableId ++ [InitOutcome.otherError])
        deviceId = InitResult.rejected := by
  unfold initModel
  rw [initAux_collisions, initAux_collisions]
  simp [initAux]

/-- C8: `broadcastChatMessage` emits, in the very call, exactly one local
`chat-message` bus event, flagged `isLocal = true`, carrying the sender's
own id, the text and the same `Date.now()` timestamp stamped into the
broadcast envelope; the local emission is identical whatever the
connection set (in particular with no peers at all), and the transport
sends are exactly the broadcast of that envelope. -/
theorem broadcastChatMessage_local_echo (st : NetState) (text : String) (now : Nat) :
    (broadcastChatMessage st text now).2 =
      [BusEvent.chatMessage st.deviceId text now true] ∧
    (∀ cs : List PeerConn,
      (broadcastChatMessage { st with connections := cs } text now).2 =
        (broadcastChatMessage st text now).2) ∧
    (broadcastChatMessage st text now).1 =
      broadcast (chatEnvelope st.deviceId text now) st.connections :=
  ⟨rfl, fun _ => rfl, rfl⟩

/-- C9: `requestVideoFromPeer` is a complete no-op — no transport send, no
`video-requested` event (the source additionally touches no state on any
path) — exactly when no open registered connection to the peer exists; and
whenever the lookup finds an open connection, it sends the `video-request`
envelope to that peer and emits `video-requested`. -/
theorem requestVideoFromPeer_gated (st : NetState) (peerId : String) (now : Nat) :
    (requestVideoFromPeer st peerId now = ([], []) ↔
      ¬ ∃ c, getConn st.connections peerId = some c ∧ c.openFlag = true) ∧
    (∀ c, getConn st.connections peerId = some c → c.openFlag = true →
      requestVideoFromPeer st peerId now =
        ([{ dest := peerId, payload := videoRequestEnvelope st.deviceId now }],
         [BusEvent.videoRequested peerId])) := by
  constructor
  · constructor
    · intro h hex
      obtain ⟨c, hc, hopen⟩ := hex
      simp [requestVideoFromPeer, hc, hopen] at h
    · intro h
      cases hc : getConn st.connections peerId with
      | none => simp [requestVideoFromPeer, hc]
      | some c =>
        cases hopen : c.openFlag with
        | false => simp [requestVideoFromPeer, hc, hopen]
        | true => exact absurd ⟨c, hc, hopen⟩ h
  · intro c hc hopen
    simp [requestVideoFromPeer, hc, hopen]

/-- Witness for C9: a host with an open connection to `p` sends the
request envelope and emits `video-requested`. -/
theorem requestVideoFromPeer_gated_witness :
    requestVideoFromPeer
        { deviceId := "H", isHost := true, roomId := none,
          connections := [{ peerId := "p", openFlag := true }] } "p" 7 =
      ([{ dest := "p", payload := videoRequestEnvelope "H" 7 }],
       [BusEvent.videoRequested "p"]) :=
  (requestVideoFromPeer_gated
      { deviceId := "H", isHost := true, roomId := none,
        connections := [{ peerId := "p", openFlag := true }] } "p" 7).2
    { peerId := "p", openFlag := true } (by decide) rfl

/-- Adding a callback to a JS `Set` makes it a member. -/
theorem setAdd_mem (s : List Nat) (cb : Nat) : cb ∈ setAdd s cb := by
  by_cases h : cb ∈ s <;> simp [setAdd, h]

/-- Adding a callback already present leaves the `Set` unchanged, so a
second identical `add` is the identity. -/
theorem setAdd_idem (s : List Nat) (cb : Nat) :
    setAdd (setAdd s cb) cb = setAdd s cb := by
  have h := setAdd_mem s cb
  rw [setAdd]
  simp [h]

/-- A duplicate-free `Set` holds the added callback exactly once. -/
theorem setAdd_count_one (s : List Nat) (cb : Nat) (h : s.Nodup) :
    (setAdd s cb).count cb = 1 := by
  by_cases hm : cb ∈ s
  · rw [setAdd, if_pos hm]
    exact List.count_eq_one_of_mem h hm
  · rw [setAdd, if_neg hm]
    simp [List.count_append, List.count_eq_zero_of_not_mem hm]

/-- The callbacks an emit invokes after an `on` are the event's previous
`Set` with the callback added. -/
theorem emitInvocations_onListener (e : String) (cb : Nat)
    (ls : List (String × List Nat)) :
    emitInvocations e (onListener e cb ls) = setAdd (emitInvocations e ls) cb := by
  induction ls with
  | nil => simp [onListener, emitInvocations]
  | cons p rest ih =>
    obtain ⟨e', s⟩ := p
    by_cases he : e' = e <;> simp [onListener, emitInvocations, he, ih]

/-- In a well-formed table every event's callback `Set` is
duplicate-free. -/
theorem emitInvocations_nodup (e : String) (ls : List (String × List Nat))
    (h : wfListeners ls) : (emitInvocations e ls).Nodup := by
  induction ls with
  | nil => simp [emitInvocations]
  | cons p rest ih =>
    obtain ⟨e', s⟩ := p
    by_cases he : e' = e
    · simpa [emitInvocations, he] using h ⟨e', s⟩ (by simp)
    · simp only [emitInvocations, he, if_false]
      exact ih fun q hq => h q (by simp [hq])

/-- C10: event-handler registration is idempotent — registering the same
callback twice with `on` leaves the listener table exactly as after the
first registration — and an `emit` of that event from the
doubly-registered table invokes the callback exactly once. -/
theorem on_idempotent_single_invocation
    (ls : List (String × List Nat)) (e : String) (cb : Nat)
    (h : wfListeners ls) :
    onListener e cb (onListener e cb ls) = onListener e cb ls ∧
    (emitInvocations e (onListener e cb (onListener e cb ls))).count cb = 1 := by
  have hidem : onListener e cb (onListener e cb ls) = onListener e cb ls := by
    clear h
    induction ls with
    | nil => simp [onListener, setAdd_idem]
    | cons p rest ih =>
      obtain ⟨e', s⟩ := p
      by_cases he : e' = e <;> simp [onListener, he, setAdd_idem, ih]
  refine ⟨hidem, ?_⟩
  rw [hidem, emitInvocations_onListener]
  exact setAdd_count_one _ cb (emitInvocations_nodup e ls h)

/-- Witness for C10 at a table already holding one other callback for the
event. -/
theorem on_idempotent_single_invocation_witness :
    onListener "chat-message" 5 (onListener "chat-message" 5 [("chat-message", [3])]) =
      onListener "chat-message" 5 [("chat-message", [3])] ∧
    (emitInvocations "chat-message"
        (onListener "chat-message" 5
          (onListener "chat-message" 5 [("chat-message", [3])]))).count 5 = 1 :=
  on_idempotent_single_invocation [("chat-message", [3])] "chat-message" 5 (by decide)

end PeerNetwork
